import Mathlib

/-!
Verification of the mcp-telnet connection engine.

Shallow embedding of the connection engine of the mcp-telnet repository:
`src/connection/state.ts` (connection state and response buffer),
`src/connection/telnet.ts` (protocol decoder, identification sequencer,
command/response correlator, reconnection backoff, timer cleanup) and
`src/utils/errors.ts` (command sanitization). Byte strings are modelled as
`List Nat` (byte values) and JavaScript strings as `List Char` or `String`;
machine arithmetic in this code never overflows, so `Nat` is used throughout.
-/

/- ===== Telnet protocol constants (src/config/constants.ts) ===== -/

def IAC : Nat := 255
def WILL : Nat := 251
def WONT : Nat := 252
def DO : Nat := 253
def DONT : Nat := 254
def SB : Nat := 250
def SE : Nat := 240
def TERMINAL_TYPE : Nat := 24
def IS : Nat := 0
def SEND : Nat := 1
def MTTS_FLAG_ANSI : Nat := 1
def MTTS_FLAG_UTF8 : Nat := 4
def MTTS_FLAG_256COLOR : Nat := 8

def DEFAULT_TIMEOUT : Nat := 30000
def KEEP_ALIVE_INTERVAL : Nat := 15000
def MAX_RECONNECT_ATTEMPTS : Nat := 3
def RECONNECT_INITIAL_DELAY : Nat := 5000
def RESPONSE_BUFFER_WAIT : Nat := 500

/- ===== Response buffer (src/connection/state.ts) ===== -/

/-- Maximum response buffer size (256 KiB), `MAX_RESPONSE_BUFFER_SIZE` in
`src/connection/state.ts`. -/
def MAX_RESPONSE_BUFFER_SIZE : Nat := 256 * 1024

/-- Function `appendToResponseBuffer` from `src/connection/state.ts`. The JavaScript
string buffer is modelled as a `List Char`; `String.prototype.slice(k)` with a
non-negative index is `List.drop k` (an index past the end yields the empty
string, as `List.drop` does). -/
def appendToResponseBuffer (responseBuffer text : List Char) : List Char :=
  let newLength := responseBuffer.length + text.length
  if newLength > MAX_RESPONSE_BUFFER_SIZE then
    let excessLength := newLength - MAX_RESPONSE_BUFFER_SIZE
    responseBuffer.drop excessLength ++ text
  else
    responseBuffer ++ text

/- ===== Theorems for claim C1 ===== -/

/-- Appending an oversized text to the empty buffer keeps the whole text:
`slice(excessLength)` on the empty old buffer is empty. -/
lemma appendToResponseBuffer_nil_oversize (t : List Char)
    (h : MAX_RESPONSE_BUFFER_SIZE < t.length) :
    appendToResponseBuffer [] t = t := by
  simp only [appendToResponseBuffer, List.length_nil, Nat.zero_add, gt_iff_lt]
  rw [if_pos h]
  simp

/-- Claim C1, counterexample: appending a single text one character longer than
the 256 KiB ceiling to an empty buffer leaves the buffer strictly longer than
the ceiling, so the claimed bound fails. In the source, `slice(excessLength)`
on the old buffer returns the empty string and the whole oversized text is
kept. -/
theorem C1_buffer_counterexample :
    ¬ (appendToResponseBuffer []
        (List.replicate (MAX_RESPONSE_BUFFER_SIZE + 1) 'a')).length
      ≤ MAX_RESPONSE_BUFFER_SIZE := by
  rw [appendToResponseBuffer_nil_oversize]
  · rw [List.length_replicate]
    omega
  · rw [List.length_replicate]
    omega

/-- Claim C1, amended: for any initial buffer content and any appended text,
the buffer after the append ends with the appended text and is a suffix of
old-buffer-followed-by-text (truncation removes only the oldest characters,
and an oversized text is kept whole); the 256 KiB length bound holds whenever
the appended text is itself no longer than the ceiling. -/
theorem C1_buffer_amended (responseBuffer text : List Char) :
    (text.length ≤ MAX_RESPONSE_BUFFER_SIZE →
      (appendToResponseBuffer responseBuffer text).length
        ≤ MAX_RESPONSE_BUFFER_SIZE) ∧
    text <:+ appendToResponseBuffer responseBuffer text ∧
    appendToResponseBuffer responseBuffer text <:+ responseBuffer ++ text := by
  unfold appendToResponseBuffer
  by_cases hc : responseBuffer.length + text.length > MAX_RESPONSE_BUFFER_SIZE
  · simp only [hc, if_pos]
    refine ⟨?_, List.suffix_append _ _, ?_⟩
    · intro h
      simp only [List.length_append, List.length_drop]
      omega
    · obtain ⟨w, hw⟩ : responseBuffer.drop
          (responseBuffer.length + text.length - MAX_RESPONSE_BUFFER_SIZE)
          <:+ responseBuffer := List.drop_suffix _ _
      exact ⟨w, by rw [← List.append_assoc, hw]⟩
  · simp only [hc, if_neg, not_false_iff]
    refine ⟨?_, List.suffix_append _ _, List.suffix_refl _⟩
    intro h
    simp only [List.length_append]
    omega

/-- Claim C1, witness: concrete instance of the amended theorem, with the
length-bound hypothesis discharged at a text below the ceiling. -/
theorem C1_buffer_witness :
    (appendToResponseBuffer ['a'] ['b', 'c']).length ≤ MAX_RESPONSE_BUFFER_SIZE ∧
    ['b', 'c'] <:+ appendToResponseBuffer ['a'] ['b', 'c'] ∧
    appendToResponseBuffer ['a'] ['b', 'c'] <:+ ['a'] ++ ['b', 'c'] :=
  ⟨(C1_buffer_amended ['a'] ['b', 'c']).1 (by decide),
   (C1_buffer_amended ['a'] ['b', 'c']).2.1,
   (C1_buffer_amended ['a'] ['b', 'c']).2.2⟩

/- ===== Protocol decoder and identification sequencer
        (src/connection/telnet.ts) ===== -/

/-- Maximum per-chunk processing size (1 MiB), `MAX_BUFFER_SIZE` in
`src/connection/telnet.ts`. -/
def MAX_BUFFER_SIZE : Nat := 1024 * 1024

/-- Module-level mutable state of `src/connection/telnet.ts` relevant to the
decoder: whether `telnetClient` is non-null, the `terminalTypeState` counter
(0 = client name, 1 = terminal type, 2 = MTTS, 3 = repeat MTTS), and the
sequence of byte buffers written to the transport so far. -/
structure TelnetModuleState where
  clientPresent : Bool
  terminalTypeState : Nat
  writes : List (List Nat)
deriving DecidableEq, Repr

/-- Identity information consulted by `sendTerminalType`: the package version
(`getPackageVersion()`), the LLM identity string (`getLLMIdentityString()`)
and whether an identity is registered (`isLLMIdentified()`). -/
structure IdentityCtx where
  version : String
  llmIdentity : String
  identified : Bool
deriving DecidableEq, Repr

/-- MTTS capability flags from `sendTerminalType`:
`MTTS_FLAG_UTF8 | MTTS_FLAG_ANSI | MTTS_FLAG_256COLOR`. -/
def mttsFlags : Nat := MTTS_FLAG_UTF8 ||| MTTS_FLAG_ANSI ||| MTTS_FLAG_256COLOR

/-- Response string chosen by the `switch (terminalTypeState)` in
`sendTerminalType` (`src/connection/telnet.ts`). A state outside 0-3 matches
no case and leaves `response` as the empty string. -/
def terminalTypeResponse (ctx : IdentityCtx) (state : Nat) : String :=
  match state with
  | 0 => if ctx.identified then
           "MCP-TELNET-" ++ ctx.version ++ "/" ++ ctx.llmIdentity
         else
           "MCP-TELNET-" ++ ctx.version
  | 1 => "XTERM"
  | 2 => "MTTS " ++ toString mttsFlags
  | 3 => "MTTS " ++ toString mttsFlags
  | _ => ""

/-- State transition performed by the same `switch`: 0 -> 1 -> 2 -> 3, and
state 3 is kept ("Keep state at 3 as per spec if more requests come in"). -/
def terminalTypeAdvance (state : Nat) : Nat :=
  match state with
  | 0 => 1
  | 1 => 2
  | 2 => 3
  | 3 => 3
  | n => n

/-- UTF-8 bytes of a string, as written by `buffer.write(response, offset)`. -/
def utf8Bytes (s : String) : List Nat := s.toUTF8.toList.map (fun b => b.toNat)

/-- Wire image of one terminal-type subnegotiation reply:
`IAC SB TERMINAL_TYPE IS <response> IAC SE`, followed by four NUL bytes
because the source allocates `response.length + 10` zero-filled bytes and
writes the whole buffer. (Modelled for responses whose UTF-8 encoding has one
byte per UTF-16 unit; all responses the sequencer emits are ASCII whenever the
version and identity strings are.) -/
def subnegWire (response : String) : List Nat :=
  [IAC, SB, TERMINAL_TYPE, IS] ++ utf8Bytes response ++ [IAC, SE] ++ [0, 0, 0, 0]

/-- Function `sendTerminalType` from `src/connection/telnet.ts`: no-op when
`telnetClient` is null; otherwise picks the response for the current
`terminalTypeState`, advances the state and writes the subnegotiation. -/
def sendTerminalType (ctx : IdentityCtx) (s : TelnetModuleState) : TelnetModuleState :=
  if s.clientPresent = false then s
  else
    { s with
      terminalTypeState := terminalTypeAdvance s.terminalTypeState,
      writes := s.writes ++ [subnegWire (terminalTypeResponse ctx s.terminalTypeState)] }

/-- Function `handleDO` from `src/connection/telnet.ts`: for `TERMINAL_TYPE` it writes
`IAC WILL TERMINAL_TYPE`; any other option is rejected with
`IAC WONT <option>`. It does not touch `terminalTypeState`. -/
def handleDO (option : Nat) (s : TelnetModuleState) : TelnetModuleState :=
  if s.clientPresent = false then s
  else if option = TERMINAL_TYPE then
    { s with writes := s.writes ++ [[IAC, WILL, TERMINAL_TYPE]] }
  else
    { s with writes := s.writes ++ [[IAC, WONT, option]] }

/-- Function `handleDONT` from `src/connection/telnet.ts`: always acknowledges with
`IAC WONT <option>`, and resets `terminalTypeState` to 0 when the option is
`TERMINAL_TYPE`. -/
def handleDONT (option : Nat) (s : TelnetModuleState) : TelnetModuleState :=
  if s.clientPresent = false then s
  else
    let s' := { s with writes := s.writes ++ [[IAC, WONT, option]] }
    if option = TERMINAL_TYPE then { s' with terminalTypeState := 0 } else s'

/-- Function `handleSubnegotiation` from `src/connection/telnet.ts`: requires a
non-null client and at least two bytes; for option `TERMINAL_TYPE` with a
SEND (1) command byte it invokes `sendTerminalType`. -/
def handleSubnegotiation (ctx : IdentityCtx) (data : List Nat)
    (s : TelnetModuleState) : TelnetModuleState :=
  match data with
  | opt :: b :: _ =>
    if s.clientPresent = false then s
    else if opt = TERMINAL_TYPE then
      if b = 1 then sendTerminalType ctx s else s
    else s
  | _ => s

/-- The subnegotiation scan of `processTelnetCommands`: advance until the
current byte is `IAC` and the next byte is `SE`; return the bytes scanned so
far and the remainder after `IAC SE`. `none` models the loop running off the
end of the chunk without finding the terminator, in which case
`handleSubnegotiation` is never called and the outer loop ends. -/
def splitSubneg : List Nat → Option (List Nat × List Nat)
  | [] => none
  | a :: rest =>
    if a = IAC ∧ rest.head? = some SE then
      some ([], rest.tail)
    else
      match splitSubneg rest with
      | some (content, r) => some (a :: content, r)
      | none => none

lemma splitSubneg_length :
    ∀ (l content rest : List Nat), splitSubneg l = some (content, rest) →
      rest.length < l.length := by
  intro l
  induction l with
  | nil => intro content rest h; simp [splitSubneg] at h
  | cons a t ih =>
    intro content rest h
    rw [splitSubneg] at h
    by_cases hc : a = IAC ∧ t.head? = some SE
    · rw [if_pos hc] at h
      obtain ⟨-, rfl⟩ : content = [] ∧ rest = t.tail := by
        injection h with h'; injection h' with h1 h2; exact ⟨h1.symm, h2.symm⟩
      have := List.length_tail t
      simp only [List.length_cons]
      omega
    · rw [if_neg hc] at h
      cases hs : splitSubneg t with
      | none => rw [hs] at h; exact absurd h (by simp)
      | some p =>
        obtain ⟨c, r⟩ := p
        rw [hs] at h
        obtain ⟨-, rfl⟩ : content = a :: c ∧ rest = r := by
          injection h with h'; injection h' with h1 h2; exact ⟨h1.symm, h2.symm⟩
        have := ih c rest hs
        simp only [List.length_cons]
        omega

/-- The scanning loop of `processTelnetCommands` (`src/connection/telnet.ts`).
`cap` is the length of the pre-allocated output buffer
(`min(data.length * 2, MAX_BUFFER_SIZE)`); `out` is the output accumulated so
far. Note the source quirk: after `IAC DO <opt>` / `IAC DONT <opt>` the index
is left pointing at the option byte (the final increment is missing), so the
option byte is re-examined as ordinary data on the next iteration. -/
def ptcLoop (ctx : IdentityCtx) (cap : Nat) :
    List Nat → TelnetModuleState → List Nat → List Nat × TelnetModuleState
  | [], s, out => (out, s)
  | b :: rest, s, out =>
    if b = IAC then
      match rest with
      | [] => (out, s)
      | c :: rest₁ =>
        if c = DO then
          match rest₁ with
          | [] => (out, s)
          | opt :: rest₂ => ptcLoop ctx cap (opt :: rest₂) (handleDO opt s) out
        else if c = DONT then
          match rest₁ with
          | [] => (out, s)
          | opt :: rest₂ => ptcLoop ctx cap (opt :: rest₂) (handleDONT opt s) out
        else if c = WILL ∨ c = WONT then
          match rest₁ with
          | [] => (out, s)
          | _ :: rest₂ => ptcLoop ctx cap rest₂ s out
        else if c = SB then
          match hs : splitSubneg rest₁ with
          | none => (out, s)
          | some (content, rest₂) =>
            ptcLoop ctx cap rest₂ (handleSubnegotiation ctx content s) out
        else
          ptcLoop ctx cap rest₁ s out
    else
      if out.length < cap then
        ptcLoop ctx cap rest s (out ++ [b])
      else
        (out, s)
  termination_by data _ _ => data.length
  decreasing_by
  · simp only [List.length_cons]; omega
  · simp only [List.length_cons]; omega
  · simp only [List.length_cons]; omega
  · have := splitSubneg_length _ _ _ hs
    simp only [List.length_cons]; omega
  · simp only [List.length_cons]; omega
  · simp only [List.length_cons]; omega

/-- Function `processTelnetCommands` from `src/connection/telnet.ts`: chunks larger
than `MAX_BUFFER_SIZE` are dropped entirely (empty output, untouched state);
otherwise the scanning loop runs with output capacity
`min(data.length * 2, MAX_BUFFER_SIZE)`. -/
def processTelnetCommands (ctx : IdentityCtx) (data : List Nat)
    (s : TelnetModuleState) : List Nat × TelnetModuleState :=
  if data.length > MAX_BUFFER_SIZE then ([], s)
  else ptcLoop ctx (min (data.length * 2) MAX_BUFFER_SIZE) data s []

/- ===== Theorems for claim C2 ===== -/

/-- One step of the sequencer on a live connection, in terms of the response
table and the state transition. -/
lemma sendTerminalType_step (ctx : IdentityCtx) (st : Nat) (ws : List (List Nat)) :
    sendTerminalType ctx ⟨true, st, ws⟩ =
      ⟨true, terminalTypeAdvance st,
        ws ++ [subnegWire (terminalTypeResponse ctx st)]⟩ := by
  simp [sendTerminalType]

/-- Once the sequencer has reached the terminal state 3, every further request
re-emits the same capability reply and leaves the state at 3. -/
lemma sendTerminalType_sticky (ctx : IdentityCtx) :
    ∀ (k : Nat) (ws : List (List Nat)),
      (sendTerminalType ctx)^[k] ⟨true, 3, ws⟩ =
        ⟨true, 3, ws ++ List.replicate k (subnegWire ("MTTS " ++ toString mttsFlags))⟩ := by
  intro k
  induction k with
  | zero => intro ws; simp
  | succ n ih =>
    intro ws
    rw [Function.iterate_succ_apply, sendTerminalType_step]
    simp only [terminalTypeAdvance, terminalTypeResponse]
    rw [ih]
    simp [List.replicate_succ]

/-- Claim C2: starting from a fresh connection (state 0, as set by `connect`),
four terminal-type SEND requests make `sendTerminalType` emit, in order, the
client-name string (with the identity suffix exactly when an identity is
registered), the fixed terminal type "XTERM", the MTTS capability token whose
numeric value is the bitwise OR of the UTF-8, ANSI and 256-color flags, and
that same token again; every request after the fourth appends another copy of
the same capability reply, the terminal state 3 being a fixed point. -/
theorem C2_sequencer (ctx : IdentityCtx) :
    ((sendTerminalType ctx)^[4] ⟨true, 0, []⟩).writes =
      [ subnegWire (if ctx.identified then
            "MCP-TELNET-" ++ ctx.version ++ "/" ++ ctx.llmIdentity
          else "MCP-TELNET-" ++ ctx.version),
        subnegWire "XTERM",
        subnegWire ("MTTS " ++ toString (MTTS_FLAG_UTF8 ||| MTTS_FLAG_ANSI ||| MTTS_FLAG_256COLOR)),
        subnegWire ("MTTS " ++ toString (MTTS_FLAG_UTF8 ||| MTTS_FLAG_ANSI ||| MTTS_FLAG_256COLOR)) ] ∧
    ((sendTerminalType ctx)^[4] ⟨true, 0, []⟩).terminalTypeState = 3 ∧
    terminalTypeAdvance 3 = 3 ∧
    (∀ k : Nat, ((sendTerminalType ctx)^[k + 4] ⟨true, 0, []⟩).writes =
      ((sendTerminalType ctx)^[4] ⟨true, 0, []⟩).writes ++
        List.replicate k (subnegWire ("MTTS " ++
          toString (MTTS_FLAG_UTF8 ||| MTTS_FLAG_ANSI ||| MTTS_FLAG_256COLOR)))) := by
  have h4 : (sendTerminalType ctx)^[4] ⟨true, 0, []⟩ =
      ⟨true, 3,
        [ subnegWire (terminalTypeResponse ctx 0), subnegWire "XTERM",
          subnegWire ("MTTS " ++ toString mttsFlags),
          subnegWire ("MTTS " ++ toString mttsFlags) ]⟩ := by
    rw [show (4 : Nat) = 1 + 1 + 1 + 1 from rfl]
    simp only [Function.iterate_add_apply, Function.iterate_one]
    rw [sendTerminalType_step]
    simp only [terminalTypeAdvance, List.nil_append]
    rw [sendTerminalType_step]
    simp only [terminalTypeAdvance, terminalTypeResponse]
    rw [sendTerminalType_step]
    simp only [terminalTypeAdvance, terminalTypeResponse]
    rw [sendTerminalType_step]
    simp [terminalTypeAdvance, terminalTypeResponse]
  refine ⟨?_, ?_, rfl, ?_⟩
  · rw [h4]
    simp [terminalTypeResponse, mttsFlags]
  · rw [h4]
  · intro k
    rw [Function.iterate_add_apply, h4, sendTerminalType_sticky]
    simp [mttsFlags]

/-- Claim C2, witness: the sequence of emitted payloads for a concrete
version and identity, over five requests. -/
theorem C2_sequencer_witness :
    ((sendTerminalType ⟨"1.2.3", "TestLLM/9 (TestCo)", true⟩)^[1 + 4]
        ⟨true, 0, []⟩).writes =
      [ subnegWire "MCP-TELNET-1.2.3/TestLLM/9 (TestCo)", subnegWire "XTERM",
        subnegWire "MTTS 13", subnegWire "MTTS 13", subnegWire "MTTS 13" ] := by
  have h := C2_sequencer ⟨"1.2.3", "TestLLM/9 (TestCo)", true⟩
  rw [h.2.2.2 1, h.1]
  rfl

/- ===== Theorems for claim C3 ===== -/

/-- Claim C3, counterexample: `handleDO TERMINAL_TYPE` on a sequencer that has
already advanced to state 1 sends the single `IAC WILL TERMINAL_TYPE` reply
but leaves the sequencer state at 1 - it does not put the Identification
Sequencer at its initial state, contrary to the claim. -/
theorem C3_negotiation_counterexample :
    (handleDO TERMINAL_TYPE ⟨true, 1, []⟩).writes = [[IAC, WILL, TERMINAL_TYPE]] ∧
    (handleDO TERMINAL_TYPE ⟨true, 1, []⟩).terminalTypeState ≠ 0 := by
  decide

/-- Claim C3, amended: with a live client, `DO TERMINAL_TYPE` is answered with
exactly one `IAC WILL TERMINAL_TYPE` and the sequencer state is left
unchanged (the sequencer is at its initial state only because `connect`
resets it, not because of the `DO`); `DO` for any other option is answered
with `IAC WONT <option>`; `DONT <option>` is always answered with
`IAC WONT <option>` and resets the sequencer to its initial state exactly
when the option is `TERMINAL_TYPE`. -/
theorem C3_negotiation_amended (opt : Nat) (s : TelnetModuleState)
    (h : s.clientPresent = true) :
    (handleDO TERMINAL_TYPE s).writes = s.writes ++ [[IAC, WILL, TERMINAL_TYPE]] ∧
    (handleDO opt s).terminalTypeState = s.terminalTypeState ∧
    (opt ≠ TERMINAL_TYPE →
      (handleDO opt s).writes = s.writes ++ [[IAC, WONT, opt]]) ∧
    (handleDONT opt s).writes = s.writes ++ [[IAC, WONT, opt]] ∧
    (handleDONT opt s).terminalTypeState =
      (if opt = TERMINAL_TYPE then 0 else s.terminalTypeState) := by
  refine ⟨?_, ?_, ?_, ?_, ?_⟩
  · simp [handleDO, h]
  · by_cases ho : opt = TERMINAL_TYPE <;> simp [handleDO, h, ho]
  · intro ho; simp [handleDO, h, ho]
  · by_cases ho : opt = TERMINAL_TYPE <;> simp [handleDONT, h, ho]
  · by_cases ho : opt = TERMINAL_TYPE <;> simp [handleDONT, h, ho]

/-- Claim C3, witness: concrete instances of the amended theorem. -/
theorem C3_negotiation_witness :
    (handleDO 31 ⟨true, 2, []⟩).writes = [[255, 252, 31]] ∧
    (handleDONT 24 ⟨true, 2, []⟩).terminalTypeState = 0 := by
  have ha := C3_negotiation_amended 31 ⟨true, 2, []⟩ rfl
  have hb := C3_negotiation_amended 24 ⟨true, 2, []⟩ rfl
  constructor
  · have hw := ha.2.2.1 (by decide)
    simpa [IAC, WONT] using hw
  · have hs := hb.2.2.2.2
    simpa [TERMINAL_TYPE] using hs

/- ===== Theorems for claim C4 ===== -/

/-- Loop invariant for IAC-free data: every byte is copied verbatim while the
output stays within capacity. -/
lemma ptcLoop_no_iac (ctx : IdentityCtx) (cap : Nat) :
    ∀ (data : List Nat) (s : TelnetModuleState) (out : List Nat),
      (∀ b ∈ data, b ≠ IAC) → out.length + data.length ≤ cap →
      ptcLoop ctx cap data s out = (out ++ data, s) := by
  intro data
  induction data with
  | nil => intro s out _ _; simp [ptcLoop]
  | cons b rest ih =>
    intro s out hno hlen
    have hb : b ≠ IAC := hno b (List.mem_cons_self b rest)
    have hout : out.length < cap := by
      simp only [List.length_cons] at hlen; omega
    rw [ptcLoop.eq_def]
    simp only [hb, ite_false, if_neg, hout, ite_true, if_pos]
    rw [ih s (out ++ [b]) (fun x hx => hno x (List.mem_cons_of_mem b hx))
        (by simp only [List.length_append, List.length_singleton,
              List.length_cons, List.length_nil] at hlen ⊢; omega)]
    simp

/-- Claim C4, amended: for every chunk containing no IAC byte whose length is
at most `MAX_BUFFER_SIZE` (1 MiB), the decoder returns the chunk unchanged
and performs no negotiation side effect; larger chunks are dropped entirely
(see the counterexample). -/
theorem C4_decoder_amended (ctx : IdentityCtx) (data : List Nat)
    (s : TelnetModuleState) (h1 : IAC ∉ data)
    (h2 : data.length ≤ MAX_BUFFER_SIZE) :
    processTelnetCommands ctx data s = (data, s) := by
  unfold processTelnetCommands
  rw [if_neg (by omega : ¬ data.length > MAX_BUFFER_SIZE),
    ptcLoop_no_iac ctx _ data s [] (fun b hb hbe => h1 (hbe ▸ hb))
      (by simpa using le_min (by omega : data.length ≤ data.length * 2) h2)]
  simp

/-- Claim C4, counterexample: a 1 MiB + 1 chunk of the letter A contains no
IAC byte, yet the decoder drops it and returns empty output, so the output
does not equal the input. -/
theorem C4_decoder_counterexample :
    IAC ∉ List.replicate (MAX_BUFFER_SIZE + 1) 65 ∧
    (processTelnetCommands ⟨"0.2.0", "ExampleLLM/1.0 (ExampleCo)", true⟩
        (List.replicate (MAX_BUFFER_SIZE + 1) 65) ⟨true, 0, []⟩).1
      ≠ List.replicate (MAX_BUFFER_SIZE + 1) 65 := by
  constructor
  · intro hmem
    rw [List.mem_replicate] at hmem
    exact absurd hmem.2 (by decide)
  · have hbig : (List.replicate (MAX_BUFFER_SIZE + 1) 65).length > MAX_BUFFER_SIZE := by
      rw [List.length_replicate]; omega
    unfold processTelnetCommands
    rw [if_pos hbig]
    intro he
    have hlen := congrArg List.length he
    rw [List.length_replicate] at hlen
    simp at hlen

/-- Claim C4, witness: a small IAC-free chunk passes through unchanged. -/
theorem C4_decoder_witness :
    processTelnetCommands ⟨"0.2.0", "ExampleLLM/1.0 (ExampleCo)", true⟩
        [104, 101, 108, 108, 111] ⟨true, 0, []⟩
      = ([104, 101, 108, 108, 111], ⟨true, 0, []⟩) :=
  C4_decoder_amended _ _ _ (by decide) (by decide)

/- ===== Command sanitization (src/utils/errors.ts) and the
        command/response correlator (src/connection/telnet.ts) ===== -/

/-- The character class removed by `sanitizeCommand`
(`src/utils/errors.ts`), the regex `[\x00-\x08\x0B\x0C\x0E-\x1F\x7F]`. -/
def isDangerousControl (c : Char) : Bool :=
  decide (c.toNat ≤ 0x08 ∨ c.toNat = 0x0B ∨ c.toNat = 0x0C ∨
    (0x0E ≤ c.toNat ∧ c.toNat ≤ 0x1F) ∨ c.toNat = 0x7F)

/-- Function `sanitizeCommand` from `src/utils/errors.ts`: the replace call
removes every matching character and keeps the rest in order. -/
def sanitizeCommand (command : List Char) : List Char :=
  command.filter (fun c => !(isDangerousControl c))

/-- Spec-side characterization, following the words of the claim: strip every
control byte (C0 controls 0x00-0x1F and DEL 0x7F) other than horizontal tab
(0x09), line feed (0x0A) and carriage return (0x0D). Stated separately so the
source function can be proved to refine it. -/
def stripControlsSpec (command : List Char) : List Char :=
  command.filter (fun c =>
    !(decide ((c.toNat ≤ 0x1F ∨ c.toNat = 0x7F) ∧
      c.toNat ≠ 0x09 ∧ c.toNat ≠ 0x0A ∧ c.toNat ≠ 0x0D)))

lemma sanitizeCommand_eq_spec (command : List Char) :
    sanitizeCommand command = stripControlsSpec command := by
  unfold sanitizeCommand stripControlsSpec
  refine List.filter_congr ?_
  intro c _
  have hd : isDangerousControl c =
      decide ((c.toNat ≤ 0x1F ∨ c.toNat = 0x7F) ∧
        c.toNat ≠ 0x09 ∧ c.toNat ≠ 0x0A ∧ c.toNat ≠ 0x0D) := by
    rw [isDangerousControl, decide_eq_decide]
    omega
  rw [hd]

/-- Effects performed synchronously by `sendCommand`
(`src/connection/telnet.ts`, lines 452-466), in program order. -/
inductive SendEffect where
  | clearBuffer : SendEffect
  | setLastCommand : List Char → SendEffect
  | transportWrite : List Char → SendEffect
deriving DecidableEq, Repr

/-- The slice of engine state read and written by one command cycle. -/
structure CommandState where
  telnetClientPresent : Bool
  telnetClientDestroyed : Bool
  isConnected : Bool
  responseBuffer : List Char
  lastCommand : List Char
  transportWrites : List (List Char)
deriving DecidableEq, Repr

/-- The guard at the top of `sendCommand` (and of `disconnect`):
`telnetClient` non-null, not destroyed, and `connectionState.isConnected`. -/
def liveTransport (s : CommandState) : Bool :=
  s.telnetClientPresent && !s.telnetClientDestroyed && s.isConnected

/-- The synchronous prefix of `sendCommand`: reject when there is no live
transport; otherwise sanitize the command, clear the response buffer, record
the sanitized command as `lastCommand`, and write sanitized-command + CRLF to
the transport, in that order. The effect trace records the order. -/
def sendCommandSync (command : List Char) (s : CommandState) :
    CommandState × List SendEffect :=
  if liveTransport s = false then (s, [])
  else
    let sanitizedCommand := sanitizeCommand command
    ({ s with
        responseBuffer := [],
        lastCommand := sanitizedCommand,
        transportWrites := s.transportWrites ++ [sanitizedCommand ++ ['\r', '\n']] },
     [SendEffect.clearBuffer, SendEffect.setLastCommand sanitizedCommand,
      SendEffect.transportWrite (sanitizedCommand ++ ['\r', '\n'])])

/-- How the `sendCommand` promise resolves. `sendCommand` arms the hard
timeout (delay `timeout`) first and the settle timer (delay
`RESPONSE_BUFFER_WAIT` = 500 ms) second; timers with equal delay fire in
registration order, the first `resolve` wins, and when the settle timer fires
first it cancels the hard timeout with `clearTimeout`. Hence the hard timeout
resolves the promise exactly when `timeout ≤ RESPONSE_BUFFER_WAIT`. -/
inductive SendPath where
  | notConnected : SendPath
  | hardTimeout : SendPath
  | settle : SendPath
deriving DecidableEq, Repr

def sendPath (s : CommandState) (timeout : Nat) : SendPath :=
  if liveTransport s = false then SendPath.notConnected
  else if timeout ≤ RESPONSE_BUFFER_WAIT then SendPath.hardTimeout
  else SendPath.settle

/-- The hard-timeout resolution value: the `TimeoutError` notice prefixed to
whatever partial buffer content exists, with `success = true`. -/
def timeoutResponse (timeout : Nat) (buffer : List Char) : String :=
  "Command timed out after " ++ toString timeout ++ "ms.\nPartial response:\n"
    ++ String.mk buffer

/-- The settle-timer resolution value: the accumulated buffer, with the
continuous-mode marker appended when `continuousEngagementActive` is set. -/
def settleResponse (buffer : List Char) (continuous : Bool) : String :=
  if continuous then
    String.mk buffer ++ "\n\n[Waiting for your next command or instruction...]"
  else String.mk buffer

/-- Default message of a new `NotConnectedError` (`src/utils/errors.ts`). -/
def notConnectedMessage : String := "Not connected to a telnet server"

/-- The `(success, response)` pair `sendCommand` resolves with, as a function
of the resolution path. `bufferAtHard` and `bufferAtSettle` are the response
buffer contents at the instants the respective timers would fire. Exceptions
thrown by the transport write (the defensive `catch` in the source) are not
modelled. -/
def sendCommandResult (s : CommandState) (timeout : Nat)
    (bufferAtHard bufferAtSettle : List Char) (continuous : Bool) :
    Bool × String :=
  match sendPath s timeout with
  | SendPath.notConnected => (false, notConnectedMessage)
  | SendPath.hardTimeout => (true, timeoutResponse timeout bufferAtHard)
  | SendPath.settle => (true, settleResponse bufferAtSettle continuous)

/- ===== Theorems for claim C5 ===== -/

/-- Claim C5: with a live transport, `sendCommand` synchronously (in order)
strips exactly the control bytes other than horizontal tab, carriage return
and line feed, clears the response buffer, records the sanitized command as
`lastCommand`, and writes the sanitized command followed by CRLF to the
transport; because the buffer is cleared before the write, the buffer any
later read sees is built only from appends that happen after the command was
sent, independent of the pre-command buffer content (no leakage across
command cycles). -/
theorem C5_command_cycle (command : List Char) (s : CommandState)
    (h : liveTransport s = true) :
    (sendCommandSync command s).2 =
      [SendEffect.clearBuffer,
       SendEffect.setLastCommand (sanitizeCommand command),
       SendEffect.transportWrite (sanitizeCommand command ++ ['\r', '\n'])] ∧
    (sendCommandSync command s).1.responseBuffer = [] ∧
    (sendCommandSync command s).1.lastCommand = sanitizeCommand command ∧
    (sendCommandSync command s).1.transportWrites =
      s.transportWrites ++ [sanitizeCommand command ++ ['\r', '\n']] ∧
    sanitizeCommand command = stripControlsSpec command ∧
    (∀ texts : List (List Char),
      texts.foldl appendToResponseBuffer
          ((sendCommandSync command s).1.responseBuffer) =
        texts.foldl appendToResponseBuffer []) := by
  have hs : ¬ liveTransport s = false := by simp [h]
  refine ⟨?_, ?_, ?_, ?_, sanitizeCommand_eq_spec command, ?_⟩ <;>
    simp [sendCommandSync, hs]

/-- Claim C5, witness: a command containing a BEL control byte is sanitized,
the buffer is cleared and the CRLF-terminated sanitized command is written. -/
theorem C5_command_cycle_witness :
    (sendCommandSync ['l', 'o', 'o', 'k', Char.ofNat 7]
        ⟨true, false, true, ['o', 'l', 'd'], [], []⟩).1.lastCommand
      = ['l', 'o', 'o', 'k'] ∧
    (sendCommandSync ['l', 'o', 'o', 'k', Char.ofNat 7]
        ⟨true, false, true, ['o', 'l', 'd'], [], []⟩).1.responseBuffer = [] := by
  have h := C5_command_cycle ['l', 'o', 'o', 'k', Char.ofNat 7]
    ⟨true, false, true, ['o', 'l', 'd'], [], []⟩ rfl
  refine ⟨?_, h.2.1⟩
  rw [h.2.2.1]
  decide

/- ===== Theorems for claim C6 ===== -/

/-- Claim C6: `sendCommand` resolves with `success = false` exactly when
there is no live transport; with a live transport the hard-timeout case still
resolves with `success = true`, carrying the timeout notice prefixed to the
partial buffer content. -/
theorem C6_success_iff_connected (s : CommandState) (timeout : Nat)
    (bufferAtHard bufferAtSettle : List Char) (continuous : Bool) :
    ((sendCommandResult s timeout bufferAtHard bufferAtSettle continuous).1 = false
      ↔ liveTransport s = false) ∧
    (liveTransport s = true → timeout ≤ RESPONSE_BUFFER_WAIT →
      sendCommandResult s timeout bufferAtHard bufferAtSettle continuous
        = (true, timeoutResponse timeout bufferAtHard)) := by
  unfold sendCommandResult sendPath
  by_cases h : liveTransport s = false
  · simp [h]
  · by_cases ht : timeout ≤ RESPONSE_BUFFER_WAIT <;> simp [h, ht]

/-- Claim C6, witness: with a live transport and a 400 ms timeout (shorter
than the settle window) the result is a success carrying the timeout notice
and the partial content. -/
theorem C6_success_iff_connected_witness :
    sendCommandResult ⟨true, false, true, [], [], []⟩ 400 ['x'] [] false
      = (true, timeoutResponse 400 ['x']) :=
  (C6_success_iff_connected ⟨true, false, true, [], [], []⟩ 400 ['x'] [] false).2
    rfl (by decide)

/- ===== Theorems for claim C10 ===== -/

/-- Claim C10, counterexample: at `timeout = 500` ms exactly - not less than
the 500 ms settle window - the hard timeout, registered before the settle
timer, fires first, so the hard-timeout partial-response branch is reachable
although 500 < 500 is false. -/
theorem C10_settle_counterexample :
    sendPath ⟨true, false, true, [], [], []⟩ 500 = SendPath.hardTimeout ∧
    ¬ ((500 : Nat) < 500) := by
  decide

/-- Claim C10, amended: with a live transport, every call with
`timeout > RESPONSE_BUFFER_WAIT` (in particular the 30000 ms default and all
tool-level timeouts of at least 1000 ms) resolves through the settle-timer
path, which cancels the hard timeout; the hard-timeout partial-response
branch is reachable exactly when `timeout ≤ RESPONSE_BUFFER_WAIT` (500 ms),
the boundary case included because the hard timer is registered first. -/
theorem C10_settle_amended (s : CommandState) (timeout : Nat)
    (h : liveTransport s = true) :
    (RESPONSE_BUFFER_WAIT < timeout → sendPath s timeout = SendPath.settle) ∧
    (sendPath s timeout = SendPath.hardTimeout ↔ timeout ≤ RESPONSE_BUFFER_WAIT) := by
  have hs : ¬ liveTransport s = false := by simp [h]
  unfold sendPath
  constructor
  · intro hlt
    have ht : ¬ timeout ≤ RESPONSE_BUFFER_WAIT := by omega
    simp [hs, ht]
  · by_cases ht : timeout ≤ RESPONSE_BUFFER_WAIT <;> simp [hs, ht]

/-- Claim C10, witness: the default 30000 ms timeout resolves through the
settle path. -/
theorem C10_settle_witness :
    sendPath ⟨true, false, true, [], [], []⟩ DEFAULT_TIMEOUT = SendPath.settle :=
  (C10_settle_amended ⟨true, false, true, [], [], []⟩ DEFAULT_TIMEOUT rfl).1
    (by decide)

/- ===== Reconnection backoff (src/connection/telnet.ts, attemptReconnect) ===== -/

/-- The backoff computed after failed attempt number `attempts` inside the
`attemptReconnect` loop: `Math.min(1000 * 2^(attempts - 1), 30000)` (base
delay 1000 ms, cap 30000 ms), before jitter. -/
def reconnectBackoffDelay (attempts : Nat) : Nat :=
  min (1000 * 2 ^ (attempts - 1)) 30000

/-- The `while (attempts < MAX_RECONNECT_ATTEMPTS)` loop of
`attemptReconnect`, with the remaining attempt budget as fuel.
`connectSucceeds n` is the outcome of the n-th `connect` call and `jitter n`
the realized `Math.random() * 1000` (in whole milliseconds) after attempt n.
Returns whether reconnection succeeded and the list of awaited delays. -/
def reconnectLoop (connectSucceeds : Nat → Bool) (jitter : Nat → Nat) :
    Nat → Nat → Bool × List Nat
  | _, 0 => (false, [])
  | attempts, r + 1 =>
    if connectSucceeds (attempts + 1) then (true, [])
    else
      let totalDelay := reconnectBackoffDelay (attempts + 1) + jitter (attempts + 1)
      let rest := reconnectLoop connectSucceeds jitter (attempts + 1) r
      (rest.1, totalDelay :: rest.2)

/-- Function `attemptReconnect` from `src/connection/telnet.ts`: the loop starts at
`attempts = 0` with budget `MAX_RECONNECT_ATTEMPTS` (3). -/
def attemptReconnect (connectSucceeds : Nat → Bool) (jitter : Nat → Nat) :
    Bool × List Nat :=
  reconnectLoop connectSucceeds jitter 0 MAX_RECONNECT_ATTEMPTS

/-- The delay elapsing before attempt `n` (1-based) of a reconnection round:
attempt 1 is scheduled by the error/timeout/close handler after the fixed
`RECONNECT_INITIAL_DELAY` (no jitter); attempt `n + 1` follows the backoff the loop awaited after failed attempt `n`. -/
def delayBeforeAttempt (n : Nat) (jitter : Nat → Nat) : Nat :=
  if n = 1 then RECONNECT_INITIAL_DELAY
  else reconnectBackoffDelay (n - 1) + jitter (n - 1)

/- ===== Theorems for claim C7 ===== -/

/-- Claim C7, counterexample: with zero jitter, the delay before attempt 2 is
1000 ms (the backoff computed after attempt 1), not the claimed
`min(1000 * 2^(2-1), 30000) = 2000` ms; and the delay before attempt 1 is the
fixed 5000 ms `RECONNECT_INITIAL_DELAY`, not the claimed 1000 ms. -/
theorem C7_backoff_counterexample :
    delayBeforeAttempt 2 (fun _ => 0) = 1000 ∧
    min (1000 * 2 ^ (2 - 1)) 30000 + 0 = 2000 ∧
    delayBeforeAttempt 1 (fun _ => 0) = 5000 ∧
    min (1000 * 2 ^ (1 - 1)) 30000 + 0 = 1000 ∧
    (1000 : Nat) ≠ 2000 ∧ (5000 : Nat) ≠ 1000 := by
  decide

/-- Claim C7, amended: the backoff awaited after failed attempt `n` (hence
before attempt `n + 1`) is `min(1000 * 2^(n-1), 30000)` plus a jitter of at
most 1000 ms; the delay before attempt 1 is the fixed 5000 ms
`RECONNECT_INITIAL_DELAY` with no jitter; when all three attempts fail, the
loop awaits exactly the delays for attempts 1, 2, 3, whose total excluding
jitter is 1000 + 2000 + 4000 ms, each term independently capped at 30000 ms. -/
theorem C7_backoff_amended (jitter : Nat → Nat) (hj : ∀ n, jitter n < 1000) :
    (attemptReconnect (fun _ => false) jitter).2 =
      [reconnectBackoffDelay 1 + jitter 1,
       reconnectBackoffDelay 2 + jitter 2,
       reconnectBackoffDelay 3 + jitter 3] ∧
    reconnectBackoffDelay 1 = 1000 ∧
    reconnectBackoffDelay 2 = 2000 ∧
    reconnectBackoffDelay 3 = 4000 ∧
    reconnectBackoffDelay 1 + reconnectBackoffDelay 2 + reconnectBackoffDelay 3
      = 1000 + 2000 + 4000 ∧
    (∀ n, reconnectBackoffDelay n ≤ 30000) ∧
    (∀ n, jitter n ≤ 1000) ∧
    (∀ n, delayBeforeAttempt (n + 2) jitter
      = min (1000 * 2 ^ n) 30000 + jitter (n + 1)) ∧
    delayBeforeAttempt 1 jitter = RECONNECT_INITIAL_DELAY := by
  refine ⟨?_, by decide, by decide, by decide, by decide, ?_, ?_, ?_, ?_⟩
  · simp [attemptReconnect, reconnectLoop, MAX_RECONNECT_ATTEMPTS]
  · intro n; exact min_le_right _ _
  · intro n; exact Nat.le_of_lt (hj n)
  · intro n
    simp [delayBeforeAttempt, reconnectBackoffDelay]
  · simp [delayBeforeAttempt]

/-- Claim C7, witness: with a constant 500 ms jitter and all three attempts
failing, the loop awaits 1500, 2500 and 4500 ms. -/
theorem C7_backoff_witness :
    (attemptReconnect (fun _ => false) (fun _ => 500)).2 = [1500, 2500, 4500] := by
  have h := C7_backoff_amended (fun _ => 500) (fun _ => by norm_num)
  rw [h.1]
  norm_num [reconnectBackoffDelay]

/- ===== Timer cleanup and disconnect (src/connection/telnet.ts) ===== -/

/-- The timer-related module state of `src/connection/telnet.ts`:
`telnetClient` nullness/destroyed flag, `connectionState.isConnected`, the
keep-alive interval, the size of the `activeReconnectionTimers` set, and
whether an `attemptReconnect` loop is currently awaiting its backoff sleep.
That sleep is a bare `setTimeout` promise that is never added to
`activeReconnectionTimers`. -/
structure TimerState where
  telnetClientPresent : Bool
  telnetClientDestroyed : Bool
  isConnected : Bool
  keepAliveArmed : Bool
  pendingReconnectTimers : Nat
  reconnectSleepPending : Bool
deriving DecidableEq, Repr

/-- Function `cleanupTimers` from `src/connection/telnet.ts`: stops keep-alive and
clears every timer tracked in `activeReconnectionTimers`. The backoff sleep
inside a running `attemptReconnect` is not tracked there and is untouched. -/
def cleanupTimers (s : TimerState) : TimerState :=
  { s with keepAliveArmed := false, pendingReconnectTimers := 0 }

/-- Function `disconnect` from `src/connection/telnet.ts`: when `telnetClient` is
null, destroyed, or `isConnected` is false it returns a `NotConnectedError`
immediately - before `cleanupTimers()` is ever called; otherwise it cleans up
the tracked timers, destroys the socket and marks the state disconnected.
Returns the new state and the `success` flag. -/
def disconnect (s : TimerState) : TimerState × Bool :=
  if s.telnetClientPresent = false ∨ s.telnetClientDestroyed = true ∨
      s.isConnected = false then
    (s, false)
  else
    let s₁ := cleanupTimers s
    ({ s₁ with
        telnetClientPresent := false
        telnetClientDestroyed := true
        isConnected := false },
     true)

/-- Module state right after the transport-error handler ran: the client was
destroyed and nulled, `isConnected` was set to false, and one reconnection
timer was scheduled into `activeReconnectionTimers`. -/
def erroredWithPendingTimer : TimerState :=
  { telnetClientPresent := false
    telnetClientDestroyed := true
    isConnected := false
    keepAliveArmed := false
    pendingReconnectTimers := 1
    reconnectSleepPending := false }

/-- Module state while connected with an `attemptReconnect` loop awaiting its
backoff sleep (the sleep promise is not in `activeReconnectionTimers`). -/
def connectedWithBackoffSleep : TimerState :=
  { telnetClientPresent := true
    telnetClientDestroyed := false
    isConnected := true
    keepAliveArmed := true
    pendingReconnectTimers := 0
    reconnectSleepPending := true }

/- ===== Theorem for claim C8 ===== -/

/-- Claim C8 is a code bug: after a transport error the handler nulls the
client, sets `isConnected` to false and schedules a reconnection timer; a
subsequent explicit `disconnect` then takes the `NotConnectedError` early
return and never reaches `cleanupTimers`, leaving the scheduled timer armed,
so it later fires `attemptReconnect` - a further connection attempt after the
disconnect completed. Moreover, even a successful disconnect leaves an
in-flight backoff sleep pending, because that sleep is never tracked in
`activeReconnectionTimers`. -/
theorem C8_disconnect_code_bug :
    (disconnect erroredWithPendingTimer).1.pendingReconnectTimers = 1 ∧
    (disconnect erroredWithPendingTimer).2 = false ∧
    (disconnect connectedWithBackoffSleep).2 = true ∧
    (disconnect connectedWithBackoffSleep).1.reconnectSleepPending = true := by
  decide

/- ===== Connection state updates (src/connection/state.ts) ===== -/

/-- SSL details stored in `ConnectionState.sslInfo`; `cipher` and
`certificate` are opaque records in the source (`any`), modelled as opaque
strings. -/
structure SSLInfo where
  authorized : Bool
  authorizationError : Option String
  protocol : Option String
  cipher : Option String
  certificate : Option String
deriving DecidableEq, Repr

/-- The `ConnectionState` record of `src/connection/state.ts`. -/
structure ConnectionState where
  isConnected : Bool
  host : String
  port : Nat
  lastError : String
  lastCommand : String
  lastResponse : String
  name : String
  continuousEngagementActive : Bool
  defaultDelay : Nat
  useTLS : Bool
  sslInfo : Option SSLInfo
deriving DecidableEq, Repr

/-- A `Partial<ConnectionState>` update: present fields override, absent
fields keep the current value. -/
structure PartialConnectionState where
  isConnected : Option Bool
  host : Option String
  port : Option Nat
  lastError : Option String
  lastCommand : Option String
  lastResponse : Option String
  name : Option String
  continuousEngagementActive : Option Bool
  defaultDelay : Option Nat
  useTLS : Option Bool
  sslInfo : Option (Option SSLInfo)
deriving DecidableEq, Repr

/-- The spread `{ ...connectionState, ...newState }`. -/
def mergeConnectionState (current : ConnectionState)
    (newState : PartialConnectionState) : ConnectionState :=
  { isConnected := newState.isConnected.getD current.isConnected,
    host := newState.host.getD current.host,
    port := newState.port.getD current.port,
    lastError := newState.lastError.getD current.lastError,
    lastCommand := newState.lastCommand.getD current.lastCommand,
    lastResponse := newState.lastResponse.getD current.lastResponse,
    name := newState.name.getD current.name,
    continuousEngagementActive :=
      newState.continuousEngagementActive.getD current.continuousEngagementActive,
    defaultDelay := newState.defaultDelay.getD current.defaultDelay,
    useTLS := newState.useTLS.getD current.useTLS,
    sslInfo := newState.sslInfo.getD current.sslInfo }

/-- Outcome of one `setConnectionState` call: either the merge is applied, or
the call observes `isUpdatingState` and re-queues itself via
`setTimeout(() => setConnectionState(newState), 0)`. -/
inductive StateUpdateResult where
  | applied : ConnectionState → StateUpdateResult
  | rescheduled : StateUpdateResult
deriving DecidableEq, Repr

/-- Function `setConnectionState` from `src/connection/state.ts`: the guard on the
`isUpdatingState` flag is the ad-hoc spin-retry - a busy caller is
rescheduled at the back of the event queue after 0 ms rather than blocked on
a mutual-exclusion primitive. -/
def setConnectionState (isUpdatingState : Bool) (current : ConnectionState)
    (newState : PartialConnectionState) : StateUpdateResult :=
  if isUpdatingState then StateUpdateResult.rescheduled
  else StateUpdateResult.applied (mergeConnectionState current newState)

/-- The module-level initial `connectionState` of `src/connection/state.ts`. -/
def initialConnectionState : ConnectionState :=
  { isConnected := false, host := "", port := 0, lastError := "",
    lastCommand := "", lastResponse := "", name := "",
    continuousEngagementActive := false, defaultDelay := 0, useTLS := false,
    sslInfo := none }

/- ===== Theorem for claim C9 ===== -/

/-- Claim C9 is a code bug: the only protection in the code is the
`isUpdatingState` flag, and an update arriving while the flag is set is not
applied under any mutual-exclusion primitive but deferred through a
zero-delay `setTimeout` reschedule - precisely the spin-retry the spec
requires replaced, which can reorder a deferred update past a later writer.
The theorem evaluates both branches of `setConnectionState`: the free branch
applies the merge, the busy branch yields a reschedule instead of an applied
update. -/
theorem C9_spin_retry (current : ConnectionState)
    (newState : PartialConnectionState) :
    setConnectionState false current newState
      = StateUpdateResult.applied (mergeConnectionState current newState) ∧
    setConnectionState true current newState
      = StateUpdateResult.rescheduled := by
  constructor <;> rfl
